import Mathlib

/-!
Verification of `ops/scripts/upload-to-vector-store.py`.

The script reads a newline-delimited JSON file of support-ticket records,
renders each record into a text document, writes the document to a transient
local file, uploads it through two vendor API calls (file create, then vector
store attach), removes the transient file, and prints a final success/error
report.  The embedding below mirrors the source line by line: records are the
typed shape the script accesses (`doc.get('text')`, `doc.get('metadata', {})`
and the nine metadata keys), the vendor API and the filesystem are modelled by
an outcome oracle and an explicit file-name list, and every print-side effect
that matters to the claims is recorded as an event in a trace.
-/

/-- The `metadata` mapping of one record.  Every key is optional, matching the
script's use of `metadata.get(key, default)` everywhere. -/
structure Metadata where
  ticketId : Option String
  subject : Option String
  language : Option String
  is_cancellation : Option Bool
  has_payment_issue : Option Bool
  edge_case : Option String
  customer_concerns : Option (List String)
  topic_keywords : Option (List String)
  conversation_summary : Option String
deriving DecidableEq

/-- The empty mapping `{}`, the default taken by `doc.get('metadata', {})`. -/
def emptyMetadata : Metadata :=
  ⟨none, none, none, none, none, none, none, none, none⟩

/-- One parsed JSONL record: `text` and `metadata`, both optional. -/
structure Record where
  text : Option String
  metadata : Option Metadata
deriving DecidableEq

/-- `', '.join(lst) or 'None'`: joining with `", "` and falling back to the
string `"None"` when the joined result is empty (Python's falsy `or`). -/
def joinOrNone (l : List String) : String :=
  let s := String.intercalate ", " l
  if s = "" then "None" else s

/-- The rendered Customer Concerns field:
`', '.join(metadata.get('customer_concerns', [])) or 'None'`. -/
def customerConcernsField (m : Metadata) : String :=
  joinOrNone (m.customer_concerns.getD [])

/-- The `text_content` f-string of lines 56-75 of the script, field by field. -/
def renderDoc (doc : Record) : String :=
  let m := doc.metadata.getD emptyMetadata
  "CANCELLATION TICKET: " ++ m.ticketId.getD "unknown" ++
  "\nSubject: " ++ m.subject.getD "N/A" ++
  "\nLanguage: " ++ m.language.getD "unknown" ++
  "\nCategory: " ++ (if m.is_cancellation.getD false then "Cancellation" else "Other") ++
  "\nPayment Issue: " ++ (if m.has_payment_issue.getD false then "Yes" else "No") ++
  "\nEdge Case: " ++ m.edge_case.getD "none" ++
  "\nCustomer Concerns: " ++ customerConcernsField m ++
  "\n\nCONVERSATION:\n" ++ doc.text.getD "" ++
  "\n\nMETADATA:\n- Ticket ID: " ++ m.ticketId.getD "unknown" ++
  "\n- Language: " ++ m.language.getD "unknown" ++
  "\n- Has Payment Issue: " ++ (if m.has_payment_issue.getD false then "True" else "False") ++
  "\n- Edge Case: " ++ m.edge_case.getD "none" ++
  "\n- Customer Concerns: " ++ customerConcernsField m ++
  "\n- Topic Keywords: " ++ joinOrNone (m.topic_keywords.getD []) ++
  "\n- Conversation Summary: " ++ m.conversation_summary.getD "None" ++ "\n"

/-- `f"temp_cancellation_{metadata.get('ticketId', global_index)}.txt"`:
the ticket id when present, otherwise the decimal global index. -/
def tempFilename (m : Metadata) (g : Nat) : String :=
  "temp_cancellation_" ++ m.ticketId.getD (toString g) ++ ".txt"

/-- A string occurs verbatim inside another. -/
@[reducible] def containsStr (s pat : String) : Prop :=
  List.IsInfix pat.data s.data

/-- What the environment does to one record's fallible steps inside the
`try` block: either every step succeeds and the create call returns a file id,
or an exception is raised at one of the steps (building `text_content`,
opening the temp file for writing, writing it, the `files.create` call, or
the `vector_stores.files.create` call). -/
inductive RecOutcome where
  | ok (fileId : String)
  | errRender
  | errOpenWrite
  | errWrite
  | errFileCreate
  | errAttach
deriving DecidableEq

/-- Whether an outcome is an exception (lands in the `except` block). -/
def isErr : RecOutcome → Bool
  | .ok _ => false
  | _ => true

/-- Observable events of a run: the input file being read, the two vendor API
calls (tagged with the record's 1-based global index), the per-batch header
print, and the 3-second sleep between batches. -/
inductive Ev where
  | readInput
  | apiFileCreate (g : Nat)
  | apiAttach (g : Nat)
  | batch (num size : Nat)
  | sleep3
deriving DecidableEq

/-- Mutable state threaded through the loop: the set of files on disk, the two
counters, and the event trace so far. -/
structure St where
  fs : List String
  success : Nat
  error : Nat
  events : List Ev
deriving DecidableEq

/-- `open(temp_filename, 'w')`: creates the file if it is not there. -/
def createFile (name : String) (fs : List String) : List String :=
  if name ∈ fs then fs else name :: fs

/-- `os.remove(temp_filename)`. -/
def removeFile (name : String) (fs : List String) : List String :=
  fs.filter (fun f => f ≠ name)

/-- The `except` block's cleanup:
`if os.path.exists(temp_filename): os.remove(temp_filename)`. -/
def cleanupTemp (name : String) (fs : List String) : List String :=
  if name ∈ fs then removeFile name fs else fs

/-- Lines 53-108: process one record at 1-based global index `g` under outcome
`out`.  On success the temp file is written, both API calls happen, the temp
file is removed and `success_count` is incremented; on any exception the
`except` block increments `error_count` and removes the temp file if it
exists.  Either way the function returns (the loop continues). -/
def processRecord (g : Nat) (doc : Record) (out : RecOutcome) (st : St) : St :=
  let m := doc.metadata.getD emptyMetadata
  let tmp := tempFilename m g
  match out with
  | .errRender =>
      ⟨cleanupTemp tmp st.fs, st.success, st.error + 1, st.events⟩
  | .errOpenWrite =>
      ⟨cleanupTemp tmp st.fs, st.success, st.error + 1, st.events⟩
  | .errWrite =>
      ⟨cleanupTemp tmp (createFile tmp st.fs), st.success, st.error + 1, st.events⟩
  | .errFileCreate =>
      ⟨cleanupTemp tmp (createFile tmp st.fs), st.success, st.error + 1,
        st.events ++ [Ev.apiFileCreate g]⟩
  | .errAttach =>
      ⟨cleanupTemp tmp (createFile tmp st.fs), st.success, st.error + 1,
        st.events ++ [Ev.apiFileCreate g, Ev.apiAttach g]⟩
  | .ok _ =>
      ⟨removeFile tmp (createFile tmp st.fs), st.success + 1, st.error,
        st.events ++ [Ev.apiFileCreate g, Ev.apiAttach g]⟩

/-- The inner `for j, doc in enumerate(batch)` loop: process the items of one
batch at consecutive global indices, starting at `g`. -/
def procItems (o : Nat → RecOutcome) : Nat → List Record → St → St
  | _, [], st => st
  | g, d :: ds, st => procItems o (g + 1) ds (processRecord g d (o g) st)

/-- The index sequence of `for i in range(0, len(documents), batch_size)` with
`batch_size = 5`; its length is `(len(documents) + batch_size - 1) //
batch_size`, the `total_batches` of line 47. -/
def rangeBatches (n : Nat) : List Nat :=
  List.range' 0 ((n + 5 - 1) / 5) 5

/-- Lines 44-113, the body of the batch loop iterated over the index list:
`batch = documents[i:i+5]`, the batch header `(i // batch_size) + 1` is
printed with the batch size, the batch is processed at global indices
`i + j + 1`, and if `i + batch_size < len(documents)` the script sleeps 3
seconds before the next batch. -/
def uploadBatches (o : Nat → RecOutcome) (n : Nat) (docs : List Record) :
    List Nat → St → St
  | [], st => st
  | i :: is, st =>
    let batch := (docs.drop i).take 5
    let st0 : St := ⟨st.fs, st.success, st.error,
      st.events ++ [Ev.batch (i / 5 + 1) batch.length]⟩
    let st1 := procItems o (i + 1) batch st0
    let st2 : St := if i + 5 < n then ⟨st1.fs, st1.success, st1.error,
      st1.events ++ [Ev.sleep3]⟩ else st1
    uploadBatches o n docs is st2

/-- The whole batch loop over a parsed document list. -/
def uploadLoop (o : Nat → RecOutcome) (docs : List Record) (st : St) : St :=
  uploadBatches o docs.length docs (rangeBatches docs.length) st

/-- Process environment: the two variables the script reads. -/
structure Env where
  apiKey : Option String
  vectorStoreId : Option String

/-- Local disk before the run: the fixed-path input file (absent, or present
as the list of per-line parse results for its non-blank lines), and whatever
other files exist. -/
structure Disk where
  input : Option (List (Except Unit Record))
  files : List String

/-- The top-level exceptions the script can die with: the vendor client's
missing-api-key error, the explicit `ValueError` for the missing vector store
id, the explicit `FileNotFoundError`, a `json.loads` failure on some line, and
the `ZeroDivisionError` of the success-rate computation on line 120. -/
inductive ScriptError where
  | apiKeyUnset
  | vectorStoreUnset
  | fileNotFound
  | lineParseError
  | zeroDivision
deriving DecidableEq

/-- The final report of lines 115-120. `rate1` is the printed success rate:
`success / total * 100` shown with one decimal digit. -/
structure Report where
  total : Nat
  success : Nat
  error : Nat
  rate1 : ℚ
deriving DecidableEq

/-- Rounding to one decimal place, as `:.1f` prints the exact quotient. -/
def round1 (q : ℚ) : ℚ :=
  ((Rat.floor (q * 10 + 1 / 2) : ℤ) : ℚ) / 10

/-- Lines 32-35: each non-blank line goes through `json.loads`; the first
malformed line raises and aborts the whole function. -/
def parseLines : List (Except Unit Record) → Except Unit (List Record)
  | [] => .ok []
  | .error e :: _ => .error e
  | .ok r :: ls => (parseLines ls).map (fun ds => r :: ds)

/-- The whole of `upload_to_vector_store()`: client construction (the vendor
client raises if `OPENAI_API_KEY` is unset), the `OPENAI_VECTOR_STORE_ID`
check, the input-file existence check, per-line parsing, the batched upload
loop, and the final report (whose success-rate division raises
`ZeroDivisionError` when no records were parsed).  Returns the outcome
together with the event trace. -/
def run (env : Env) (disk : Disk) (o : Nat → RecOutcome) :
    Except ScriptError Report × List Ev :=
  match env.apiKey with
  | none => (.error .apiKeyUnset, [])
  | some _ =>
    match env.vectorStoreId with
    | none => (.error .vectorStoreUnset, [])
    | some _ =>
      match disk.input with
      | none => (.error .fileNotFound, [])
      | some lines =>
        match parseLines lines with
        | .error _ => (.error .lineParseError, [Ev.readInput])
        | .ok docs =>
          let st := uploadLoop o docs ⟨disk.files, 0, 0, [Ev.readInput]⟩
          if docs.length = 0 then
            (.error .zeroDivision, st.events)
          else
            (.ok ⟨docs.length, st.success, st.error,
              round1 ((st.success : ℚ) / (docs.length : ℚ) * 100)⟩, st.events)

/-- The `__main__` guard, lines 126-131: exit code 0 when
`upload_to_vector_store()` returns, 1 when it raises. -/
def exitCode (res : Except ScriptError Report × List Ev) : Nat :=
  match res.1 with
  | .ok _ => 0
  | .error _ => 1

/-- Keep only the batch-header and sleep events of a trace. -/
def batchTrace (evs : List Ev) : List Ev :=
  evs.filter fun e =>
    match e with
    | .batch _ _ => true
    | .sleep3 => true
    | _ => false

/-- Start state of the loop: the pre-existing files, zeroed counters, and the
input file already read. -/
def initSt (disk : Disk) : St :=
  ⟨disk.files, 0, 0, [Ev.readInput]⟩

/-- Number of success outcomes among global indices `g, g+1, ..., g+len-1`. -/
def okCount (o : Nat → RecOutcome) : Nat → Nat → Nat
  | _, 0 => 0
  | g, len + 1 => (if isErr (o g) then 0 else 1) + okCount o (g + 1) len

/-- Number of exception outcomes among global indices `g, ..., g+len-1`. -/
def errCount (o : Nat → RecOutcome) : Nat → Nat → Nat
  | _, 0 => 0
  | g, len + 1 => (if isErr (o g) then 1 else 0) + errCount o (g + 1) len

/-- The batch-header/sleep trace produced by `k` loop iterations starting at
index `i` over `n` documents. -/
def planTrace (n : Nat) : Nat → Nat → List Ev
  | _, 0 => []
  | i, k + 1 =>
    Ev.batch (i / 5 + 1) (min 5 (n - i)) ::
      ((if i + 5 < n then [Ev.sleep3] else []) ++ planTrace n (i + 5) k)

lemma processRecord_success (g : Nat) (d : Record) (out : RecOutcome) (st : St) :
    (processRecord g d out st).success = st.success + (if isErr out then 0 else 1) := by
  cases out <;> simp [processRecord, isErr]

lemma processRecord_error (g : Nat) (d : Record) (out : RecOutcome) (st : St) :
    (processRecord g d out st).error = st.error + (if isErr out then 1 else 0) := by
  cases out <;> simp [processRecord, isErr]

lemma batchTrace_append (a b : List Ev) :
    batchTrace (a ++ b) = batchTrace a ++ batchTrace b := by
  simp [batchTrace, List.filter_append]

lemma batchTrace_processRecord (g : Nat) (d : Record) (out : RecOutcome) (st : St) :
    batchTrace (processRecord g d out st).events = batchTrace st.events := by
  cases out <;> simp [processRecord, batchTrace, List.filter_append]

lemma procItems_success (o : Nat → RecOutcome) :
    ∀ (l : List Record) (g : Nat) (st : St),
      (procItems o g l st).success = st.success + okCount o g l.length := by
  intro l
  induction l with
  | nil => intro g st; simp [procItems, okCount]
  | cons d ds ih =>
    intro g st
    simp [procItems, okCount, ih, processRecord_success]
    omega

lemma procItems_error (o : Nat → RecOutcome) :
    ∀ (l : List Record) (g : Nat) (st : St),
      (procItems o g l st).error = st.error + errCount o g l.length := by
  intro l
  induction l with
  | nil => intro g st; simp [procItems, errCount]
  | cons d ds ih =>
    intro g st
    simp [procItems, errCount, ih, processRecord_error]
    omega

lemma batchTrace_procItems (o : Nat → RecOutcome) :
    ∀ (l : List Record) (g : Nat) (st : St),
      batchTrace (procItems o g l st).events = batchTrace st.events := by
  intro l
  induction l with
  | nil => intro g st; simp [procItems]
  | cons d ds ih =>
    intro g st
    simp [procItems, ih, batchTrace_processRecord]

lemma okCount_add (o : Nat → RecOutcome) :
    ∀ (a : Nat) (g b : Nat),
      okCount o g (a + b) = okCount o g a + okCount o (g + a) b := by
  intro a
  induction a with
  | zero => intro g b; simp [okCount]
  | succ a ih =>
    intro g b
    have h1 : a + 1 + b = (a + b) + 1 := by omega
    have h2 : g + (a + 1) = (g + 1) + a := by omega
    rw [h1]
    simp [okCount, ih (g + 1) b, h2]
    omega

lemma errCount_add (o : Nat → RecOutcome) :
    ∀ (a : Nat) (g b : Nat),
      errCount o g (a + b) = errCount o g a + errCount o (g + a) b := by
  intro a
  induction a with
  | zero => intro g b; simp [errCount]
  | succ a ih =>
    intro g b
    have h1 : a + 1 + b = (a + b) + 1 := by omega
    have h2 : g + (a + 1) = (g + 1) + a := by omega
    rw [h1]
    simp [errCount, ih (g + 1) b, h2]
    omega

lemma uploadBatches_success (o : Nat → RecOutcome) (n : Nat) (docs : List Record)
    (hn : docs.length = n) :
    ∀ (k i : Nat) (st : St),
      (uploadBatches o n docs (List.range' i k 5) st).success
        = st.success + okCount o (i + 1) (min (5 * k) (n - i)) := by
  intro k
  induction k with
  | zero => intro i st; simp [uploadBatches, okCount]
  | succ k ih =>
    intro i st
    rw [List.range'_succ]
    simp only [uploadBatches]
    rw [ih]
    by_cases hs : i + 5 < n <;>
      simp only [hs, if_true, if_false, reduceIte, procItems_success, List.length_take,
        List.length_drop, hn]
    · have hd : n - (i + 5) = n - i - 5 := by omega
      have hmin : min (5 * (k + 1)) (n - i) = 5 + min (5 * k) (n - i - 5) := by omega
      have h5 : min 5 (n - i) = 5 := by omega
      have hidx : i + 5 + 1 = i + 1 + 5 := by omega
      rw [hd, hmin, okCount_add o 5 (i + 1), h5, hidx]
      omega
    · have hd : n - (i + 5) = 0 := by omega
      have hmin : min (5 * (k + 1)) (n - i) = min 5 (n - i) := by omega
      rw [hd, hmin]
      simp [okCount]

lemma uploadBatches_error (o : Nat → RecOutcome) (n : Nat) (docs : List Record)
    (hn : docs.length = n) :
    ∀ (k i : Nat) (st : St),
      (uploadBatches o n docs (List.range' i k 5) st).error
        = st.error + errCount o (i + 1) (min (5 * k) (n - i)) := by
  intro k
  induction k with
  | zero => intro i st; simp [uploadBatches, errCount]
  | succ k ih =>
    intro i st
    rw [List.range'_succ]
    simp only [uploadBatches]
    rw [ih]
    by_cases hs : i + 5 < n <;>
      simp only [hs, if_true, if_false, reduceIte, procItems_error, List.length_take,
        List.length_drop, hn]
    · have hd : n - (i + 5) = n - i - 5 := by omega
      have hmin : min (5 * (k + 1)) (n - i) = 5 + min (5 * k) (n - i - 5) := by omega
      have h5 : min 5 (n - i) = 5 := by omega
      have hidx : i + 5 + 1 = i + 1 + 5 := by omega
      rw [hd, hmin, errCount_add o 5 (i + 1), h5, hidx]
      omega
    · have hd : n - (i + 5) = 0 := by omega
      have hmin : min (5 * (k + 1)) (n - i) = min 5 (n - i) := by omega
      rw [hd, hmin]
      simp [errCount]

lemma uploadBatches_batchTrace (o : Nat → RecOutcome) (n : Nat) (docs : List Record)
    (hn : docs.length = n) :
    ∀ (k i : Nat) (st : St),
      batchTrace (uploadBatches o n docs (List.range' i k 5) st).events
        = batchTrace st.events ++ planTrace n i k := by
  intro k
  induction k with
  | zero => intro i st; simp [uploadBatches, planTrace]
  | succ k ih =>
    intro i st
    rw [List.range'_succ]
    simp only [uploadBatches]
    rw [ih]
    by_cases hs : i + 5 < n <;>
      simp only [hs, if_true, if_false, reduceIte, batchTrace_procItems, batchTrace_append,
        List.length_take, List.length_drop, hn, planTrace]
    · simp [batchTrace, hs]
    · simp [batchTrace, hs]

lemma uploadLoop_success (o : Nat → RecOutcome) (docs : List Record) (st : St) :
    (uploadLoop o docs st).success = st.success + okCount o 1 docs.length := by
  rw [uploadLoop, rangeBatches, uploadBatches_success o docs.length docs rfl]
  have : min (5 * ((docs.length + 5 - 1) / 5)) (docs.length - 0) = docs.length := by omega
  rw [this]

lemma uploadLoop_error (o : Nat → RecOutcome) (docs : List Record) (st : St) :
    (uploadLoop o docs st).error = st.error + errCount o 1 docs.length := by
  rw [uploadLoop, rangeBatches, uploadBatches_error o docs.length docs rfl]
  have : min (5 * ((docs.length + 5 - 1) / 5)) (docs.length - 0) = docs.length := by omega
  rw [this]

lemma uploadLoop_batchTrace (o : Nat → RecOutcome) (docs : List Record) (st : St) :
    batchTrace (uploadLoop o docs st).events
      = batchTrace st.events ++ planTrace docs.length 0 ((docs.length + 5 - 1) / 5) := by
  rw [uploadLoop, rangeBatches, uploadBatches_batchTrace o docs.length docs rfl]

lemma okCount_add_errCount (o : Nat → RecOutcome) :
    ∀ (len g : Nat), okCount o g len + errCount o g len = len := by
  intro len
  induction len with
  | zero => intro g; simp [okCount, errCount]
  | succ len ih =>
    intro g
    simp [okCount, errCount]
    have := ih (g + 1)
    by_cases h : isErr (o g) = true <;> simp [h] <;> omega

lemma okCount_one_err (o : Nat → RecOutcome) (k : Nat)
    (hke : isErr (o k) = true) (hok : ∀ g, g ≠ k → isErr (o g) = false) :
    ∀ (len g : Nat),
      okCount o g len = len - (if g ≤ k ∧ k < g + len then 1 else 0) := by
  intro len
  induction len with
  | zero => intro g; simp [okCount]
  | succ len ih =>
    intro g
    by_cases hg : g = k
    · subst hg
      simp [okCount, hke, ih (g + 1)]
    · have hne := hok g hg
      simp [okCount, hne, ih (g + 1)]
      by_cases h1 : g + 1 ≤ k ∧ k < g + 1 + len <;>
        by_cases h2 : g ≤ k ∧ k < g + (len + 1) <;>
        simp [h1, h2] <;> omega

lemma errCount_one_err (o : Nat → RecOutcome) (k : Nat)
    (hke : isErr (o k) = true) (hok : ∀ g, g ≠ k → isErr (o g) = false) :
    ∀ (len g : Nat),
      errCount o g len = if g ≤ k ∧ k < g + len then 1 else 0 := by
  intro len
  induction len with
  | zero =>
    intro g
    have hcf : ¬(g ≤ k ∧ k < g) := by omega
    simp [errCount, hcf]
  | succ len ih =>
    intro g
    by_cases hg : g = k
    · subst hg
      simp [errCount, hke, ih (g + 1)]
    · have hne := hok g hg
      simp [errCount, hne, ih (g + 1)]
      by_cases h1 : g + 1 ≤ k ∧ k < g + 1 + len <;>
        by_cases h2 : g ≤ k ∧ k < g + (len + 1) <;>
        simp [h1, h2] <;> omega

lemma run_eq_ok (env : Env) (disk : Disk) (o : Nat → RecOutcome)
    (ak vs : String) (lines : List (Except Unit Record)) (docs : List Record)
    (h1 : env.apiKey = some ak) (h2 : env.vectorStoreId = some vs)
    (h3 : disk.input = some lines) (h4 : parseLines lines = .ok docs)
    (h5 : docs.length ≠ 0) :
    run env disk o =
      (.ok ⟨docs.length, (uploadLoop o docs (initSt disk)).success,
        (uploadLoop o docs (initSt disk)).error,
        round1 (((uploadLoop o docs (initSt disk)).success : ℚ) /
          (docs.length : ℚ) * 100)⟩,
        (uploadLoop o docs (initSt disk)).events) := by
  simp [run, h1, h2, h3, h4, h5, initSt]


/-! Concrete demonstration values used by the witness theorems. -/

def demoDoc : Record := ⟨some "hello", none⟩

def demoMetaNoCc : Metadata :=
  ⟨none, none, none, none, none, none, some [], none, none⟩

def demoMetaTwoCc : Metadata :=
  ⟨none, none, none, none, none, none, some ["refund", "delay"], none, none⟩

def demoEnv : Env := ⟨some "sk-demo", some "vs-demo"⟩

def demoOk : Nat → RecOutcome := fun _ => .ok "file-demo"

def demoFail2 : Nat → RecOutcome := fun g => if g = 2 then .errFileCreate else .ok "file-demo"

def demoDocs3 : List Record := [demoDoc, demoDoc, demoDoc]

def demoDocs12 : List Record :=
  [demoDoc, demoDoc, demoDoc, demoDoc, demoDoc, demoDoc,
   demoDoc, demoDoc, demoDoc, demoDoc, demoDoc, demoDoc]

def demoDisk3 : Disk := ⟨some (demoDocs3.map .ok), []⟩

def demoDisk12 : Disk := ⟨some (demoDocs12.map .ok), []⟩

def demoDiskEmpty : Disk := ⟨some [], []⟩

def demoDiskAbsent : Disk := ⟨none, []⟩

def demoSt : St := ⟨[], 0, 0, []⟩

/-- C1: any exception raised while processing a single record is caught
individually (the per-record step is a total function that lands in the
`except` block), counted as one error with the success counter untouched, and
the loop continues with the next record: processing `d :: ds` is exactly
processing `d` followed by processing `ds`, so a per-record failure never
aborts the run. -/
theorem per_record_exception_caught (o : Nat → RecOutcome) (g : Nat)
    (d : Record) (ds : List Record) (st : St) (h : isErr (o g) = true) :
    procItems o g (d :: ds) st = procItems o (g + 1) ds (processRecord g d (o g) st)
    ∧ (processRecord g d (o g) st).error = st.error + 1
    ∧ (processRecord g d (o g) st).success = st.success := by
  refine ⟨rfl, ?_, ?_⟩
  · rw [processRecord_error, h]
    simp
  · rw [processRecord_success, h]
    simp

theorem per_record_exception_caught_witness :
    procItems demoFail2 2 (demoDoc :: [demoDoc]) demoSt
      = procItems demoFail2 (2 + 1) [demoDoc] (processRecord 2 demoDoc (demoFail2 2) demoSt)
    ∧ (processRecord 2 demoDoc (demoFail2 2) demoSt).error = demoSt.error + 1
    ∧ (processRecord 2 demoDoc (demoFail2 2) demoSt).success = demoSt.success :=
  per_record_exception_caught demoFail2 2 demoDoc [demoDoc] demoSt (by decide)

/-- C4: the rendered Customer Concerns field (the expression
`', '.join(metadata.get('customer_concerns', [])) or 'None'` used in both
template positions) renders an empty `customer_concerns` list as the literal
`"None"`, and `["refund", "delay"]` as `"refund, delay"`. -/
theorem customer_concerns_field_rendering (m m' : Metadata)
    (h : m.customer_concerns = some [])
    (h' : m'.customer_concerns = some ["refund", "delay"]) :
    customerConcernsField m = "None" ∧ customerConcernsField m' = "refund, delay" := by
  constructor
  · simp only [customerConcernsField, h]
    decide
  · simp only [customerConcernsField, h']
    decide

theorem customer_concerns_field_rendering_witness :
    customerConcernsField demoMetaNoCc = "None"
    ∧ customerConcernsField demoMetaTwoCc = "refund, delay" :=
  customer_concerns_field_rendering demoMetaNoCc demoMetaTwoCc rfl rfl

/-- C5: whatever the outcome of one record's processing — success or any
caught exception — the record's transient file is not on disk afterwards: the
success path removes it at line 96 and the `except` block removes it at lines
106-108 if it exists. -/
theorem temp_file_absent_after_record (g : Nat) (d : Record) (out : RecOutcome)
    (st : St) :
    tempFilename (d.metadata.getD emptyMetadata) g ∉ (processRecord g d out st).fs := by
  have hrem : ∀ fs : List String,
      tempFilename (d.metadata.getD emptyMetadata) g ∉
        removeFile (tempFilename (d.metadata.getD emptyMetadata) g) fs := by
    intro fs
    simp [removeFile]
  have hclean : ∀ fs : List String,
      tempFilename (d.metadata.getD emptyMetadata) g ∉
        cleanupTemp (tempFilename (d.metadata.getD emptyMetadata) g) fs := by
    intro fs
    unfold cleanupTemp
    split
    · exact hrem fs
    · assumption
  cases out <;> simp only [processRecord] <;> first | exact hclean _ | exact hrem _

/-- C8: with the environment variables set but the input file absent, the run
dies with the file-not-found error before reading or parsing anything: no
event at all — in particular no file-create or attach API call — is emitted. -/
theorem missing_input_file_aborts (env : Env) (disk : Disk) (o : Nat → RecOutcome)
    (ak vs : String) (h1 : env.apiKey = some ak) (h2 : env.vectorStoreId = some vs)
    (h3 : disk.input = none) :
    run env disk o = (.error .fileNotFound, []) := by
  simp [run, h1, h2, h3]

theorem missing_input_file_aborts_witness :
    run demoEnv demoDiskAbsent demoOk = (.error .fileNotFound, []) :=
  missing_input_file_aborts demoEnv demoDiskAbsent demoOk "sk-demo" "vs-demo" rfl rfl rfl

/-- C9: if `OPENAI_VECTOR_STORE_ID` is unset the run raises a fatal error
(either the script's own `ValueError`, or the vendor client's error when the
API key is also unset) and terminates with exit code 1 before the input file
is opened or read: the event trace is empty. -/
theorem missing_vector_store_id_aborts (env : Env) (disk : Disk)
    (o : Nat → RecOutcome) (h : env.vectorStoreId = none) :
    exitCode (run env disk o) = 1 ∧ (run env disk o).2 = [] := by
  cases hak : env.apiKey <;> simp [run, exitCode, hak, h]

theorem missing_vector_store_id_aborts_witness :
    exitCode (run ⟨some "sk-demo", none⟩ demoDiskAbsent demoOk) = 1
    ∧ (run ⟨some "sk-demo", none⟩ demoDiskAbsent demoOk).2 = [] :=
  missing_vector_store_id_aborts ⟨some "sk-demo", none⟩ demoDiskAbsent demoOk rfl

/-- C2: on an input of exactly 12 parsed records the loop runs exactly 3
batches of sizes 5, 5 and 2, sleeping 3 seconds after batch 1 and after
batch 2 but not after the final batch. -/
theorem twelve_records_three_batches (env : Env) (disk : Disk)
    (o : Nat → RecOutcome) (ak vs : String) (lines : List (Except Unit Record))
    (docs : List Record)
    (h1 : env.apiKey = some ak) (h2 : env.vectorStoreId = some vs)
    (h3 : disk.input = some lines) (h4 : parseLines lines = .ok docs)
    (h12 : docs.length = 12) :
    batchTrace (run env disk o).2 =
      [Ev.batch 1 5, Ev.sleep3, Ev.batch 2 5, Ev.sleep3, Ev.batch 3 2] := by
  rw [run_eq_ok env disk o ak vs lines docs h1 h2 h3 h4 (by omega)]
  show batchTrace (uploadLoop o docs (initSt disk)).events = _
  rw [uploadLoop_batchTrace, h12]
  have hinit : batchTrace (initSt disk).events = [] := rfl
  rw [hinit]
  decide

theorem twelve_records_three_batches_witness :
    batchTrace (run demoEnv demoDisk12 demoFail2).2 =
      [Ev.batch 1 5, Ev.sleep3, Ev.batch 2 5, Ev.sleep3, Ev.batch 3 2] :=
  twelve_records_three_batches demoEnv demoDisk12 demoFail2 "sk-demo" "vs-demo"
    (demoDocs12.map .ok) demoDocs12 rfl rfl rfl rfl rfl

/-- C6: when exactly one of the N parsed records fails — during one of its two
API calls — and every other record succeeds, the run still reaches the final
report, which shows N-1 successes, 1 error, and the success rate
(N-1)/N*100 rounded to one decimal place. -/
theorem single_failure_final_report (env : Env) (disk : Disk)
    (o : Nat → RecOutcome) (ak vs : String) (lines : List (Except Unit Record))
    (docs : List Record) (N k : Nat)
    (h1 : env.apiKey = some ak) (h2 : env.vectorStoreId = some vs)
    (h3 : disk.input = some lines) (h4 : parseLines lines = .ok docs)
    (hN : docs.length = N) (hk1 : 1 ≤ k) (hk2 : k ≤ N)
    (hfail : o k = .errFileCreate ∨ o k = .errAttach)
    (hok : ∀ g, g ≠ k → isErr (o g) = false) :
    (run env disk o).1 =
      .ok ⟨N, N - 1, 1, round1 (((N - 1 : Nat) : ℚ) / (N : ℚ) * 100)⟩ := by
  have hke : isErr (o k) = true := by
    cases hfail with
    | inl h => rw [h]; rfl
    | inr h => rw [h]; rfl
  have hs : (uploadLoop o docs (initSt disk)).success = N - 1 := by
    rw [uploadLoop_success, hN, okCount_one_err o k hke hok N 1]
    have : (1 ≤ k ∧ k < 1 + N) := by omega
    rw [if_pos this]
    simp [initSt]
  have he : (uploadLoop o docs (initSt disk)).error = 1 := by
    rw [uploadLoop_error, hN, errCount_one_err o k hke hok N 1]
    have : (1 ≤ k ∧ k < 1 + N) := by omega
    rw [if_pos this]
    simp [initSt]
  rw [run_eq_ok env disk o ak vs lines docs h1 h2 h3 h4 (by omega)]
  show Except.ok (⟨docs.length, _, _, _⟩ : Report) = _
  rw [hs, he, hN]

theorem single_failure_final_report_witness :
    (run demoEnv demoDisk3 demoFail2).1 =
      .ok ⟨3, 3 - 1, 1, round1 (((3 - 1 : Nat) : ℚ) / (3 : ℚ) * 100)⟩ :=
  single_failure_final_report demoEnv demoDisk3 demoFail2 "sk-demo" "vs-demo"
    (demoDocs3.map .ok) demoDocs3 3 2 rfl rfl rfl rfl rfl (by decide) (by decide)
    (Or.inl rfl)
    (by
      intro g hg
      simp [demoFail2, hg, isErr])

/-- C10: every run that reaches the final report satisfies
`success + error = total`, and each per-record step increments exactly one of
the two counters by exactly 1. -/
theorem report_counts_partition (env : Env) (disk : Disk) (o : Nat → RecOutcome)
    (r : Report) (evs : List Ev) (h : run env disk o = (.ok r, evs)) :
    r.success + r.error = r.total
    ∧ (∀ (g : Nat) (d : Record) (out : RecOutcome) (st : St),
        ((processRecord g d out st).success = st.success + 1
          ∧ (processRecord g d out st).error = st.error)
        ∨ ((processRecord g d out st).success = st.success
          ∧ (processRecord g d out st).error = st.error + 1)) := by
  constructor
  · cases hak : env.apiKey with
    | none => simp [run, hak] at h
    | some ak =>
      cases hvs : env.vectorStoreId with
      | none => simp [run, hak, hvs] at h
      | some vs =>
        cases hin : disk.input with
        | none => simp [run, hak, hvs, hin] at h
        | some lines =>
          cases hp : parseLines lines with
          | error e => simp [run, hak, hvs, hin, hp] at h
          | ok docs =>
            by_cases h0 : docs.length = 0
            · simp [run, hak, hvs, hin, hp, h0] at h
            · rw [run_eq_ok env disk o ak vs lines docs hak hvs hin hp h0] at h
              have hr : r = ⟨docs.length, (uploadLoop o docs (initSt disk)).success,
                  (uploadLoop o docs (initSt disk)).error,
                  round1 (((uploadLoop o docs (initSt disk)).success : ℚ) /
                    (docs.length : ℚ) * 100)⟩ := by
                have := congrArg Prod.fst h
                simp at this
                exact this.symm
              rw [hr]
              show (uploadLoop o docs (initSt disk)).success
                  + (uploadLoop o docs (initSt disk)).error = docs.length
              rw [uploadLoop_success, uploadLoop_error]
              show 0 + okCount o 1 docs.length + (0 + errCount o 1 docs.length) = _
              rw [Nat.zero_add, Nat.zero_add, okCount_add_errCount]
  · intro g d out st
    cases hout : isErr out with
    | true =>
      right
      rw [processRecord_success, processRecord_error, hout]
      simp
    | false =>
      left
      rw [processRecord_success, processRecord_error, hout]
      simp

theorem report_counts_partition_witness :
    ((3 : Nat) - 1) + 1 = 3
    ∧ (∀ (g : Nat) (d : Record) (out : RecOutcome) (st : St),
        ((processRecord g d out st).success = st.success + 1
          ∧ (processRecord g d out st).error = st.error)
        ∨ ((processRecord g d out st).success = st.success
          ∧ (processRecord g d out st).error = st.error + 1)) :=
  report_counts_partition demoEnv demoDisk3 demoFail2
    ⟨3, 3 - 1, 1, round1 (((3 - 1 : Nat) : ℚ) / (3 : ℚ) * 100)⟩
    (run demoEnv demoDisk3 demoFail2).2
    (by rfl)

/-- C7 counterexample: a run whose record loop completes (the input file
exists and holds zero records, so the loop body never fails — indeed never
runs) and yet the process exits with code 1: the final report's success-rate
expression `success_count / len(documents) * 100` divides by zero, a
top-level exception not in the claim's list. -/
theorem empty_input_exit_one :
    run demoEnv demoDiskEmpty demoOk = (.error .zeroDivision, [Ev.readInput])
    ∧ exitCode (run demoEnv demoDiskEmpty demoOk) = 1 :=
  ⟨rfl, rfl⟩

/-- C7 amended: a run whose loop completes exits with code 0 provided at
least one record was parsed; the process exits with code 1 exactly when a
top-level exception occurs — missing environment variable, missing input
file, per-line parse error, or the success-rate division by zero on an empty
parsed record list. -/
theorem exit_codes_characterized (env : Env) (disk : Disk) (o : Nat → RecOutcome) :
    (∀ (ak vs : String) (lines : List (Except Unit Record)) (docs : List Record),
      env.apiKey = some ak → env.vectorStoreId = some vs →
      disk.input = some lines → parseLines lines = .ok docs → docs.length ≠ 0 →
      exitCode (run env disk o) = 0)
    ∧ (exitCode (run env disk o) = 1 ↔
        env.apiKey = none ∨ env.vectorStoreId = none ∨ disk.input = none
        ∨ (∃ lines, disk.input = some lines ∧
            ((∃ e, parseLines lines = .error e) ∨ parseLines lines = .ok []))) := by
  constructor
  · intro ak vs lines docs h1 h2 h3 h4 h5
    rw [run_eq_ok env disk o ak vs lines docs h1 h2 h3 h4 h5]
    rfl
  · cases hak : env.apiKey with
    | none => simp [run, exitCode, hak]
    | some ak =>
      cases hvs : env.vectorStoreId with
      | none => simp [run, exitCode, hak, hvs]
      | some vs =>
        cases hin : disk.input with
        | none => simp [run, exitCode, hak, hvs, hin]
        | some lines =>
          cases hp : parseLines lines with
          | error e => simp [run, exitCode, hak, hvs, hin, hp]
          | ok docs =>
            by_cases h0 : docs.length = 0
            · have hnil : docs = [] := List.length_eq_zero.mp h0
              subst hnil
              simp [run, exitCode, hak, hvs, hin, hp]
            · have hnil : ¬docs = [] := by
                intro hc
                exact h0 (by rw [hc]; rfl)
              rw [run_eq_ok env disk o ak vs lines docs hak hvs hin hp h0]
              simp [exitCode, hp, hnil]

theorem exit_codes_characterized_witness :
    exitCode (run demoEnv demoDisk3 demoOk) = 0
    ∧ (exitCode (run demoEnv demoDisk3 demoOk) = 1 ↔
        demoEnv.apiKey = none ∨ demoEnv.vectorStoreId = none ∨ demoDisk3.input = none
        ∨ (∃ lines, demoDisk3.input = some lines ∧
            ((∃ e, parseLines lines = .error e) ∨ parseLines lines = .ok []))) :=
  ⟨(exit_codes_characterized demoEnv demoDisk3 demoOk).1 "sk-demo" "vs-demo"
      (demoDocs3.map .ok) demoDocs3 rfl rfl rfl rfl (by decide),
    (exit_codes_characterized demoEnv demoDisk3 demoOk).2⟩

set_option maxRecDepth 10000

/-- With no metadata (or an empty mapping) every placeholder default is taken,
so the rendered document is a fixed header, the record's `text`, and a fixed
metadata block. -/
lemma renderDoc_missing_shape (t : Option String) :
    renderDoc ⟨t, none⟩ =
      "CANCELLATION TICKET: unknown\nSubject: N/A\nLanguage: unknown\nCategory: Other\nPayment Issue: No\nEdge Case: none\nCustomer Concerns: None\n\nCONVERSATION:\n"
      ++ (t.getD ""
      ++ "\n\nMETADATA:\n- Ticket ID: unknown\n- Language: unknown\n- Has Payment Issue: False\n- Edge Case: none\n- Customer Concerns: None\n- Topic Keywords: None\n- Conversation Summary: None\n") := by
  simp only [renderDoc, String.append_assoc]
  rfl

lemma contains_left (a b pat : String) (hp : containsStr a pat) :
    containsStr (a ++ b) pat := by
  show List.IsInfix pat.data (a ++ b).data
  rw [String.data_append]
  exact hp.trans (List.prefix_append a.data b.data).isInfix

lemma contains_right (a b pat : String) (hp : containsStr b pat) :
    containsStr (a ++ b) pat := by
  show List.IsInfix pat.data (a ++ b).data
  rw [String.data_append]
  exact hp.trans (List.suffix_append a.data b.data).isInfix

/-- C3: a record with no `metadata` field, or with an empty metadata mapping,
renders without raising (rendering is a total function here, matching the
always-defaulting `metadata.get(key, default)` accesses), and the rendered
document shows every placeholder: `unknown` for ticket id and language,
`N/A` for the subject, and `None` for customer concerns, topic keywords and
the conversation summary. -/
theorem missing_metadata_placeholders (t : Option String) (md : Option Metadata)
    (h : md = none ∨ md = some emptyMetadata) :
    containsStr (renderDoc ⟨t, md⟩) "CANCELLATION TICKET: unknown"
    ∧ containsStr (renderDoc ⟨t, md⟩) "Language: unknown"
    ∧ containsStr (renderDoc ⟨t, md⟩) "Subject: N/A"
    ∧ containsStr (renderDoc ⟨t, md⟩) "Customer Concerns: None"
    ∧ containsStr (renderDoc ⟨t, md⟩) "Topic Keywords: None"
    ∧ containsStr (renderDoc ⟨t, md⟩) "Conversation Summary: None" := by
  have hmd : renderDoc ⟨t, md⟩ = renderDoc ⟨t, none⟩ := by
    rcases h with rfl | rfl <;> rfl
  rw [hmd, renderDoc_missing_shape t]
  refine ⟨contains_left _ _ _ (by decide), contains_left _ _ _ (by decide),
    contains_left _ _ _ (by decide), contains_left _ _ _ (by decide),
    contains_right _ _ _ (contains_right _ _ _ (by decide)),
    contains_right _ _ _ (contains_right _ _ _ (by decide))⟩

theorem missing_metadata_placeholders_witness :
    containsStr (renderDoc ⟨some "hello", none⟩) "CANCELLATION TICKET: unknown"
    ∧ containsStr (renderDoc ⟨some "hello", none⟩) "Language: unknown"
    ∧ containsStr (renderDoc ⟨some "hello", none⟩) "Subject: N/A"
    ∧ containsStr (renderDoc ⟨some "hello", none⟩) "Customer Concerns: None"
    ∧ containsStr (renderDoc ⟨some "hello", none⟩) "Topic Keywords: None"
    ∧ containsStr (renderDoc ⟨some "hello", none⟩) "Conversation Summary: None" :=
  missing_metadata_placeholders (some "hello") none (Or.inl rfl)
